import Mathlib

/-!
# Windows runner entry point of Stockcito (`windows/runner/main.cpp`)

The only function of the file is `wWinMain`.  It is a straight-line sequence of
calls to external collaborators (the COM runtime, the Flutter project and
window wrappers, the Win32 message queue) with one checked branch and one
loop.

Embedding.  Everything a collaborator can answer is collected in an `Env`:
the `HRESULT` of `CoInitializeEx`, the vector returned by
`GetCommandLineArguments`, the `bool` returned by `window.Create`, and the
successive answers of `GetMessage`.  Running `wWinMain` against an `Env`
yields a `Run`: the ordered trace of the calls written in the body of
`wWinMain`, with their arguments, and the way the run ends (a returned exit
status, or a `GetMessage` call that blocks for ever because the queue has
nothing more to deliver).

`Win32Window::Point` and `Win32Window::Size` are plain value records and are
embedded as data.  Destructors run implicitly at scope exit are not calls
written in `wWinMain` and are not part of the trace.
-/

namespace Stockcito

/-- The Win32 message record `::MSG` filled in by `GetMessage`. -/
structure MSG where
  hwnd : Nat
  message : Nat
  wParam : Nat
  lParam : Int
  time : Nat
  ptX : Int
  ptY : Int
deriving DecidableEq, Repr

/-- The value record `Win32Window::Point`. -/
structure Point where
  x : Nat
  y : Nat
deriving DecidableEq, Repr

/-- The value record `Win32Window::Size`. -/
structure Size where
  width : Nat
  height : Nat
deriving DecidableEq, Repr

/-- Modelled from the spec: the class `flutter::DartProject` comes from the
framework headers, which are not among the sources.  The spec describes the
descriptor as the resource directory path together with the ordered sequence of
string arguments forwarded to the runtime. -/
structure DartProject where
  path : String
  dart_entrypoint_arguments : List String
deriving DecidableEq, Repr

/-- Modelled from the spec: `set_dart_entrypoint_arguments` attaches the given
sequence to the descriptor (the setter itself lives in the framework
headers). -/
def DartProject.set_dart_entrypoint_arguments (p : DartProject) (arguments : List String) :
    DartProject :=
  { p with dart_entrypoint_arguments := arguments }

/-- Modelled from the spec: `EXIT_SUCCESS` of `<stdlib.h>`; the spec fixes the
success status to `0`. -/
def EXIT_SUCCESS : Int := 0

/-- Modelled from the spec: `EXIT_FAILURE` of `<stdlib.h>`; the spec only asks
for a non-zero status, the value of the Windows C runtime is `1`. -/
def EXIT_FAILURE : Int := 1

/-- Modelled from the spec: `COINIT_APARTMENTTHREADED` of `<objbase.h>`, the
apartment-threaded mode flag (`0x2`). -/
def COINIT_APARTMENTTHREADED : Nat := 2

/-- One collaborator call written in the body of `wWinMain`, with the
arguments it is given there.  A null pointer argument is `none`. -/
inductive Event where
  | CoInitializeEx (pvReserved : Option Nat) (dwCoInit : Nat)
  | DartProject_ctor (path : String)
  | GetCommandLineArguments
  | set_dart_entrypoint_arguments (arguments : List String)
  | FlutterWindow_ctor (project : DartProject)
  | Create (title : String) (origin : Point) (size : Size)
  | SetQuitOnClose (quit_on_close : Bool)
  | GetMessage (hWnd : Option Nat) (wMsgFilterMin : Nat) (wMsgFilterMax : Nat)
  | TranslateMessage (msg : MSG)
  | DispatchMessage (msg : MSG)
  | CoUninitialize
deriving DecidableEq, Repr

/-- What the collaborators answer during one process run.

`messages` lists the successive answers of `GetMessage`: the `BOOL` it returns
(`0` is the quit signal, `-1` the error return, anything else a retrieved
message) together with the content of the record `msg` as it stands after the
call.  When the list is exhausted the next `GetMessage` call never returns. -/
structure Env where
  coInitializeExResult : Int
  commandLineArguments : List String
  createResult : Bool
  messages : List (Int × MSG)
deriving DecidableEq, Repr

/-- How a run ends: `wWinMain` returns a status, or it stays blocked inside
`GetMessage`. -/
inductive Outcome where
  | returned (status : Int)
  | blocked
deriving DecidableEq, Repr

/-- The observable behaviour of one run of `wWinMain`. -/
structure Run where
  trace : List Event
  outcome : Outcome
deriving DecidableEq, Repr

/-- The call `::GetMessage(&msg, nullptr, 0, 0)` of line 33. -/
def getMessageCall : Event := Event.GetMessage none 0 0

/-- The loop of lines 32-36:
`while (::GetMessage(&msg, nullptr, 0, 0)) { ::TranslateMessage(&msg); ::DispatchMessage(&msg); }`.
The argument is the list of pending answers of `GetMessage`.  The result is
the list of calls made and whether the loop was left (`true`) or is blocked in
`GetMessage` (`false`). -/
def messageLoop : List (Int × MSG) → List Event × Bool
  | [] => ([getMessageCall], false)
  | (ret, msg) :: pending =>
    if ret ≠ 0 then
      let rest := messageLoop pending
      (getMessageCall :: Event.TranslateMessage msg :: Event.DispatchMessage msg :: rest.1,
        rest.2)
    else
      ([getMessageCall], true)

/-- The entry point `wWinMain` (lines 8-40). -/
def wWinMain (env : Env) : Run :=
  -- 13: ::CoInitializeEx(nullptr, COINIT_APARTMENTTHREADED);   (the HRESULT is dropped)
  let _hr : Int := env.coInitializeExResult
  let t1 : List Event := [Event.CoInitializeEx none COINIT_APARTMENTTHREADED]
  -- 15: flutter::DartProject project(L"data");
  let project : DartProject := { path := "data", dart_entrypoint_arguments := [] }
  let t2 := t1 ++ [Event.DartProject_ctor "data"]
  -- 18-19: std::vector<std::string> command_line_arguments = GetCommandLineArguments();
  let command_line_arguments : List String := env.commandLineArguments
  let t3 := t2 ++ [Event.GetCommandLineArguments]
  -- 21: project.set_dart_entrypoint_arguments(std::move(command_line_arguments));
  let project := project.set_dart_entrypoint_arguments command_line_arguments
  let t4 := t3 ++ [Event.set_dart_entrypoint_arguments command_line_arguments]
  -- 23: FlutterWindow window(project);
  let t5 := t4 ++ [Event.FlutterWindow_ctor project]
  -- 24-25
  let origin : Point := { x := 10, y := 10 }
  let size : Size := { width := 1280, height := 720 }
  -- 27: if (!window.Create(L"Stockcito - Gestión de Inventario", origin, size))
  let created : Bool := env.createResult
  let t6 := t5 ++ [Event.Create "Stockcito - Gestión de Inventario" origin size]
  if !created then
    -- 28: return EXIT_FAILURE;
    { trace := t6, outcome := Outcome.returned EXIT_FAILURE }
  else
    -- 30: window.SetQuitOnClose(true);
    let t7 := t6 ++ [Event.SetQuitOnClose true]
    -- 32-36
    let loop := messageLoop env.messages
    if loop.2 then
      -- 38: ::CoUninitialize();   39: return EXIT_SUCCESS;
      { trace := t7 ++ loop.1 ++ [ Event.CoUninitialize ],
        outcome := Outcome.returned EXIT_SUCCESS }
    else
      { trace := t7 ++ loop.1, outcome := Outcome.blocked }

/-! ## Observations on traces -/

/-- The calls of the message loop: retrieval, translation, dispatch. -/
def Event.isPump : Event → Bool
  | Event.GetMessage _ _ _ => true
  | Event.TranslateMessage _ => true
  | Event.DispatchMessage _ => true
  | _ => false

/-- The argument sequences handed to `set_dart_entrypoint_arguments`. -/
def forwardedArguments (trace : List Event) : List (List String) :=
  trace.filterMap fun e =>
    match e with
    | Event.set_dart_entrypoint_arguments a => some a
    | _ => none

/-- The window creation requests of a trace. -/
def createRequests (trace : List Event) : List (String × Point × Size) :=
  trace.filterMap fun e =>
    match e with
    | Event.Create t o s => some (t, o, s)
    | _ => none

/-- Recognises a `CoInitializeEx` call. -/
def Event.isCoInitializeEx : Event → Bool
  | Event.CoInitializeEx _ _ => true
  | _ => false

/-- Recognises the `CoUninitialize` call. -/
def Event.isCoUninitialize : Event → Bool
  | Event.CoUninitialize => true
  | _ => false

/-- The calls one loop iteration makes for each retrieved message, in
retrieval order: retrieve, translate, dispatch. -/
def pumped (retrieved : List (Int × MSG)) : List Event :=
  retrieved.flatMap fun p =>
    [getMessageCall, Event.TranslateMessage p.2, Event.DispatchMessage p.2]

/-- The startup calls of lines 13-27, for a given argument vector. -/
def startupCalls (arguments : List String) : List Event :=
  [ Event.CoInitializeEx none COINIT_APARTMENTTHREADED,
    Event.DartProject_ctor "data",
    Event.GetCommandLineArguments,
    Event.set_dart_entrypoint_arguments arguments,
    Event.FlutterWindow_ctor { path := "data", dart_entrypoint_arguments := arguments },
    Event.Create "Stockcito - Gestión de Inventario" { x := 10, y := 10 }
      { width := 1280, height := 720 } ]

/-- A sample message record. -/
def sampleMsg (n : Nat) : MSG :=
  { hwnd := 1, message := n, wParam := 0, lParam := 0, time := 0, ptX := 0, ptY := 0 }

/-! ## Sample runs -/

/-- A run in which window creation fails while messages are pending. -/
def failingEnv : Env :=
  { coInitializeExResult := 0
    commandLineArguments := ["--verbose", "stock.db"]
    createResult := false
    messages := [(1, sampleMsg 15), (0, sampleMsg 18)] }

/-- A run in which the window is created, two messages are retrieved (the
second with the error return `-1`) and the quit signal follows. -/
def quittingEnv : Env :=
  { coInitializeExResult := 0
    commandLineArguments := ["--verbose", "stock.db"]
    createResult := true
    messages := [(1, sampleMsg 15), (-1, sampleMsg 15), (0, sampleMsg 18), (1, sampleMsg 99)] }

/-! ## Lemmas on the message loop -/

theorem messageLoop_nonquit_append (pre tail : List (Int × MSG))
    (h : ∀ p ∈ pre, p.1 ≠ 0) :
    messageLoop (pre ++ tail) = (pumped pre ++ (messageLoop tail).1, (messageLoop tail).2) := by
  induction pre with
  | nil => simp [pumped]
  | cons p pre ih =>
    obtain ⟨r, m⟩ := p
    have hr : r ≠ 0 := h (r, m) (by simp)
    have ih2 := ih (fun q hq => h q (by simp [hq]))
    simp [messageLoop, hr, ih2, pumped]

theorem messageLoop_quit (q : MSG) (rest : List (Int × MSG)) :
    messageLoop ((0, q) :: rest) = ([getMessageCall], true) := by
  simp [messageLoop]

theorem messageLoop_isPump (ms : List (Int × MSG)) :
    ∀ e ∈ (messageLoop ms).1, e.isPump = true := by
  induction ms with
  | nil => simp [messageLoop, getMessageCall, Event.isPump]
  | cons p ms ih =>
    obtain ⟨r, m⟩ := p
    by_cases hr : r = 0
    · simp [messageLoop, hr, getMessageCall, Event.isPump]
    · simp only [messageLoop, hr, ne_eq, not_false_eq_true, ↓reduceIte]
      intro e he
      simp only [List.mem_cons] at he
      rcases he with rfl | rfl | rfl | he
      · rfl
      · rfl
      · rfl
      · exact ih e he

theorem messageLoop_exit_of_quit (pre rest : List (Int × MSG)) (q : MSG)
    (h : ∀ p ∈ pre, p.1 ≠ 0) :
    messageLoop (pre ++ (0, q) :: rest) = (pumped pre ++ [getMessageCall], true) := by
  rw [messageLoop_nonquit_append pre _ h, messageLoop_quit]

theorem messageLoop_starts_with_retrieval (ms : List (Int × MSG)) :
    ∃ tl, (messageLoop ms).1 = getMessageCall :: tl := by
  cases ms with
  | nil => exact ⟨[], rfl⟩
  | cons p ms =>
    obtain ⟨r, m⟩ := p
    by_cases hr : r = 0
    · exact ⟨[], by simp [messageLoop, hr]⟩
    · exact ⟨Event.TranslateMessage m :: Event.DispatchMessage m :: (messageLoop ms).1,
        by simp only [messageLoop, hr, ne_eq, not_false_eq_true, ↓reduceIte]⟩

theorem messageLoop_exit_has_quit (ms : List (Int × MSG)) :
    (messageLoop ms).2 = true → ∃ p ∈ ms, p.1 = 0 := by
  induction ms with
  | nil => simp [messageLoop]
  | cons p ms ih =>
    obtain ⟨r, m⟩ := p
    by_cases hr : r = 0
    · intro _
      exact ⟨(r, m), by simp, hr⟩
    · simp only [messageLoop, hr, ne_eq, not_false_eq_true, ↓reduceIte]
      intro h
      obtain ⟨p, hp, h0⟩ := ih h
      exact ⟨p, by simp [hp], h0⟩

theorem filterMap_eq_nil_of_isPump {β : Type} (f : Event → Option β) (l : List Event)
    (hf : ∀ e, e.isPump = true → f e = none) (hl : ∀ e ∈ l, e.isPump = true) :
    l.filterMap f = [] := by
  induction l with
  | nil => rfl
  | cons a l ih =>
    have ha : f a = none := hf a (hl a (by simp))
    simp [List.filterMap_cons, ha, ih (fun e he => hl e (by simp [he]))]

theorem filter_isPump_eq_self (l : List Event) (hl : ∀ e ∈ l, e.isPump = true) :
    l.filter Event.isPump = l := by
  rw [List.filter_eq_self]
  exact hl

/-- The trace of a run, spelled out by cases on the result of `Create` and on
whether the loop is left. -/
theorem wWinMain_trace (env : Env) :
    (wWinMain env).trace =
      if env.createResult = false then startupCalls env.commandLineArguments
      else if (messageLoop env.messages).2 = true then
        startupCalls env.commandLineArguments ++ [Event.SetQuitOnClose true] ++
          (messageLoop env.messages).1 ++ [ Event.CoUninitialize ]
      else
        startupCalls env.commandLineArguments ++ [Event.SetQuitOnClose true] ++
          (messageLoop env.messages).1 := by
  unfold wWinMain
  cases hc : env.createResult <;> cases hl : (messageLoop env.messages).2 <;>
    simp [hl, startupCalls, DartProject.set_dart_entrypoint_arguments]

/-- The way a run ends, by cases on the result of `Create` and on whether the
loop is left. -/
theorem wWinMain_outcome (env : Env) :
    (wWinMain env).outcome =
      if env.createResult = false then Outcome.returned EXIT_FAILURE
      else if (messageLoop env.messages).2 = true then Outcome.returned EXIT_SUCCESS
      else Outcome.blocked := by
  unfold wWinMain
  cases hc : env.createResult <;> cases hl : (messageLoop env.messages).2 <;> simp [hl]

/-! ## The claims -/

/-- C1: when `window.Create` returns false, `wWinMain` returns `EXIT_FAILURE`,
which is non-zero, and the trace of the run holds no `GetMessage`, no
`TranslateMessage` and no `DispatchMessage` call, whatever the argument vector
and the pending messages are. -/
theorem wWinMain_create_failure_exits_without_loop (env : Env)
    (h : env.createResult = false) :
    (wWinMain env).outcome = Outcome.returned EXIT_FAILURE ∧ EXIT_FAILURE ≠ 0 ∧
      (∀ hWnd lo hi, Event.GetMessage hWnd lo hi ∉ (wWinMain env).trace) ∧
      (∀ m, Event.TranslateMessage m ∉ (wWinMain env).trace) ∧
      (∀ m, Event.DispatchMessage m ∉ (wWinMain env).trace) := by
  rw [wWinMain_trace, wWinMain_outcome]
  simp [h, startupCalls, EXIT_FAILURE]

theorem wWinMain_create_failure_exits_without_loop_witness :
    failingEnv.createResult = false ∧
      (wWinMain failingEnv).outcome = Outcome.returned EXIT_FAILURE ∧ EXIT_FAILURE ≠ 0 ∧
      (∀ hWnd lo hi, Event.GetMessage hWnd lo hi ∉ (wWinMain failingEnv).trace) ∧
      (∀ m, Event.TranslateMessage m ∉ (wWinMain failingEnv).trace) ∧
      (∀ m, Event.DispatchMessage m ∉ (wWinMain failingEnv).trace) :=
  ⟨rfl, wWinMain_create_failure_exits_without_loop failingEnv rfl⟩

/-- C2: when `window.Create` returns true and `GetMessage` answers a finite
sequence of non-zero values followed by `0`, `wWinMain` returns and its exit
status is exactly `0`, which is `EXIT_SUCCESS`. -/
theorem wWinMain_quit_returns_zero (env : Env) (retrieved rest : List (Int × MSG)) (q : MSG)
    (hc : env.createResult = true)
    (hm : env.messages = retrieved ++ (0, q) :: rest)
    (hn : ∀ p ∈ retrieved, p.1 ≠ 0) :
    (wWinMain env).outcome = Outcome.returned 0 ∧ EXIT_SUCCESS = 0 := by
  rw [wWinMain_outcome, hm, messageLoop_exit_of_quit retrieved rest q hn]
  simp [hc, EXIT_SUCCESS]

theorem wWinMain_quit_returns_zero_witness :
    quittingEnv.createResult = true ∧
      quittingEnv.messages =
        [(1, sampleMsg 15), (-1, sampleMsg 15)] ++ (0, sampleMsg 18) :: [(1, sampleMsg 99)] ∧
      (∀ p ∈ [((1 : Int), sampleMsg 15), (-1, sampleMsg 15)], p.1 ≠ 0) ∧
      (wWinMain quittingEnv).outcome = Outcome.returned 0 ∧ EXIT_SUCCESS = 0 :=
  ⟨rfl, rfl, by decide,
    wWinMain_quit_returns_zero quittingEnv [(1, sampleMsg 15), (-1, sampleMsg 15)]
      [(1, sampleMsg 99)] (sampleMsg 18) rfl rfl (by decide)⟩

/-- C3: for every argument vector returned by `GetCommandLineArguments`, the
run makes exactly one `set_dart_entrypoint_arguments` call, its argument is
that very vector (same elements, same order), and the call directly follows the
retrieval. -/
theorem wWinMain_forwards_arguments_unchanged (env : Env) :
    forwardedArguments (wWinMain env).trace = [env.commandLineArguments] ∧
      ∃ before after, (wWinMain env).trace =
        before ++ Event.GetCommandLineArguments ::
          Event.set_dart_entrypoint_arguments env.commandLineArguments :: after := by
  have hpump : forwardedArguments (messageLoop env.messages).1 = [] :=
    filterMap_eq_nil_of_isPump _ _ (by intro e he; cases e <;> simp_all [Event.isPump])
      (messageLoop_isPump env.messages)
  constructor
  · rw [wWinMain_trace]
    unfold forwardedArguments at hpump ⊢
    split_ifs <;> simp [List.filterMap_append, hpump, startupCalls, List.filterMap_cons]
  · rw [wWinMain_trace]
    refine ⟨[Event.CoInitializeEx none COINIT_APARTMENTTHREADED, Event.DartProject_ctor "data"],
      ?_⟩
    split_ifs
    · exact ⟨_, rfl⟩
    · exact ⟨_, rfl⟩
    · exact ⟨_, rfl⟩

/-- C4: for every environment (argument vector, result of COM initialization,
result of `Create`, pending messages) the run requests window creation
exactly once, with the title "Stockcito - Gestión de Inventario", origin
`(10, 10)` and size `(1280, 720)`. -/
theorem wWinMain_creates_window_once_fixed (env : Env) :
    createRequests (wWinMain env).trace =
      [("Stockcito - Gestión de Inventario", { x := 10, y := 10 },
        { width := 1280, height := 720 })] := by
  have hpump : createRequests (messageLoop env.messages).1 = [] :=
    filterMap_eq_nil_of_isPump _ _ (by intro e he; cases e <;> simp_all [Event.isPump])
      (messageLoop_isPump env.messages)
  rw [wWinMain_trace]
  unfold createRequests at hpump ⊢
  split_ifs <;> simp [List.filterMap_append, hpump, startupCalls, List.filterMap_cons]

/-- C5: at the run `failingEnv`, in which `Create` returns false, `wWinMain`
returns `EXIT_FAILURE` after one `CoInitializeEx` call and without any
`CoUninitialize` call: the finalize call does not occur once on that run. -/
theorem wWinMain_failingEnv_never_finalizes :
    failingEnv.createResult = false ∧
      (wWinMain failingEnv).outcome = Outcome.returned EXIT_FAILURE ∧
      (wWinMain failingEnv).trace.countP Event.isCoInitializeEx = 1 ∧
      (wWinMain failingEnv).trace.countP Event.isCoUninitialize = 0 := by
  decide

/-- C6: when `Create` returns true and the quit signal arrives after the
retrieved messages, the trace of the run is exactly: `CoInitializeEx` in
apartment-threaded mode, construction of the project on "data",
`GetCommandLineArguments`, `set_dart_entrypoint_arguments`, construction of the
window on the project, `Create`, `SetQuitOnClose(true)`, the calls of the
message loop, `CoUninitialize`.  Moreover, on every run, `SetQuitOnClose` is
called if and only if `Create` returned true, and then with `true`. -/
theorem wWinMain_success_trace_exact (env : Env) (retrieved rest : List (Int × MSG)) (q : MSG)
    (hc : env.createResult = true)
    (hm : env.messages = retrieved ++ (0, q) :: rest)
    (hn : ∀ p ∈ retrieved, p.1 ≠ 0) :
    (wWinMain env).trace =
        [ Event.CoInitializeEx none COINIT_APARTMENTTHREADED,
          Event.DartProject_ctor "data",
          Event.GetCommandLineArguments,
          Event.set_dart_entrypoint_arguments env.commandLineArguments,
          Event.FlutterWindow_ctor
            { path := "data", dart_entrypoint_arguments := env.commandLineArguments },
          Event.Create "Stockcito - Gestión de Inventario" { x := 10, y := 10 }
            { width := 1280, height := 720 },
          Event.SetQuitOnClose true ] ++
        (pumped retrieved ++ [getMessageCall]) ++ [ Event.CoUninitialize ] ∧
      ∀ (e : Env) (b : Bool),
        Event.SetQuitOnClose b ∈ (wWinMain e).trace ↔ (b = true ∧ e.createResult = true) := by
  constructor
  · rw [wWinMain_trace, hm, messageLoop_exit_of_quit retrieved rest q hn]
    simp [hc, startupCalls]
  · intro e b
    have hloop : Event.SetQuitOnClose b ∉ (messageLoop e.messages).1 := by
      intro hmem
      have := messageLoop_isPump e.messages _ hmem
      simp [Event.isPump] at this
    rw [wWinMain_trace]
    split_ifs with h1 h2
    · simp [startupCalls, h1]
    · have h3 : e.createResult = true := by simpa using h1
      simp [startupCalls, hloop, h3, eq_comm]
    · have h3 : e.createResult = true := by simpa using h1
      simp [startupCalls, hloop, h3, eq_comm]

theorem wWinMain_success_trace_exact_witness :
    quittingEnv.createResult = true ∧
      quittingEnv.messages =
        [(1, sampleMsg 15), (-1, sampleMsg 15)] ++ (0, sampleMsg 18) :: [(1, sampleMsg 99)] ∧
      (∀ p ∈ [((1 : Int), sampleMsg 15), (-1, sampleMsg 15)], p.1 ≠ 0) ∧
      (wWinMain quittingEnv).trace =
        [ Event.CoInitializeEx none COINIT_APARTMENTTHREADED,
          Event.DartProject_ctor "data",
          Event.GetCommandLineArguments,
          Event.set_dart_entrypoint_arguments quittingEnv.commandLineArguments,
          Event.FlutterWindow_ctor
            { path := "data", dart_entrypoint_arguments := quittingEnv.commandLineArguments },
          Event.Create "Stockcito - Gestión de Inventario" { x := 10, y := 10 }
            { width := 1280, height := 720 },
          Event.SetQuitOnClose true ] ++
        (pumped [(1, sampleMsg 15), (-1, sampleMsg 15)] ++ [getMessageCall]) ++
        [ Event.CoUninitialize ] ∧
      ∀ (e : Env) (b : Bool),
        Event.SetQuitOnClose b ∈ (wWinMain e).trace ↔ (b = true ∧ e.createResult = true) :=
  ⟨rfl, rfl, by decide,
    wWinMain_success_trace_exact quittingEnv [(1, sampleMsg 15), (-1, sampleMsg 15)]
      [(1, sampleMsg 99)] (sampleMsg 18) rfl rfl (by decide)⟩

/-- C7: two runs that agree on the argument vector, on the result of `Create`
and on the message sequence, and so differ at most in the value returned by
`CoInitializeEx`, have the same trace of calls and end the same way. -/
theorem wWinMain_ignores_CoInitializeEx_result (e1 e2 : Env)
    (ha : e1.commandLineArguments = e2.commandLineArguments)
    (hc : e1.createResult = e2.createResult)
    (hm : e1.messages = e2.messages) :
    (wWinMain e1).trace = (wWinMain e2).trace ∧
      (wWinMain e1).outcome = (wWinMain e2).outcome := by
  rw [wWinMain_trace, wWinMain_trace, wWinMain_outcome, wWinMain_outcome, ha, hc, hm]
  exact ⟨rfl, rfl⟩

theorem wWinMain_ignores_CoInitializeEx_result_witness :
    quittingEnv.coInitializeExResult ≠
        ({ quittingEnv with coInitializeExResult := -2147417850 } : Env).coInitializeExResult ∧
      (wWinMain quittingEnv).trace =
        (wWinMain { quittingEnv with coInitializeExResult := -2147417850 }).trace ∧
      (wWinMain quittingEnv).outcome =
        (wWinMain { quittingEnv with coInitializeExResult := -2147417850 }).outcome :=
  ⟨by decide,
    wWinMain_ignores_CoInitializeEx_result quittingEnv
      { quittingEnv with coInitializeExResult := -2147417850 } rfl rfl rfl⟩

/-- C8: when `window.Create` returns false, `wWinMain` returns with exactly one
`CoInitializeEx` call and no `CoUninitialize` call in its trace. -/
theorem wWinMain_create_failure_skips_teardown (env : Env)
    (h : env.createResult = false) :
    (∃ status, (wWinMain env).outcome = Outcome.returned status) ∧
      (wWinMain env).trace.countP Event.isCoInitializeEx = 1 ∧
      (wWinMain env).trace.countP Event.isCoUninitialize = 0 ∧
      Event.CoUninitialize ∉ (wWinMain env).trace := by
  rw [wWinMain_trace, wWinMain_outcome]
  simp [h, startupCalls, Event.isCoInitializeEx, Event.isCoUninitialize, List.countP_cons]

theorem wWinMain_create_failure_skips_teardown_witness :
    failingEnv.createResult = false ∧
      (∃ status, (wWinMain failingEnv).outcome = Outcome.returned status) ∧
      (wWinMain failingEnv).trace.countP Event.isCoInitializeEx = 1 ∧
      (wWinMain failingEnv).trace.countP Event.isCoUninitialize = 0 ∧
      Event.CoUninitialize ∉ (wWinMain failingEnv).trace :=
  ⟨rfl, wWinMain_create_failure_skips_teardown failingEnv rfl⟩

/-- C9: when the messages retrieved before the first quit signal are
`m1..mn`, the loop makes exactly the calls retrieve, translate `m1`, dispatch
`m1`, ..., retrieve, translate `mn`, dispatch `mn`, retrieve, and is then left;
what is pending after the quit signal is never retrieved.  These are all the
message calls of the whole run, and the translate and dispatch calls are
`translate(m1), dispatch(m1), ..., translate(mn), dispatch(mn)`. -/
theorem messageLoop_translates_dispatches_in_order (env : Env)
    (retrieved rest : List (Int × MSG)) (q : MSG)
    (hc : env.createResult = true)
    (hm : env.messages = retrieved ++ (0, q) :: rest)
    (hn : ∀ p ∈ retrieved, p.1 ≠ 0) :
    messageLoop env.messages =
        (retrieved.flatMap (fun p =>
          [Event.GetMessage none 0 0, Event.TranslateMessage p.2, Event.DispatchMessage p.2]) ++
          [Event.GetMessage none 0 0], true) ∧
      (wWinMain env).trace.filter Event.isPump =
        retrieved.flatMap (fun p =>
          [Event.GetMessage none 0 0, Event.TranslateMessage p.2, Event.DispatchMessage p.2]) ++
          [Event.GetMessage none 0 0] ∧
      (wWinMain env).trace.filter
          (fun e => e.isPump && decide (e ≠ Event.GetMessage none 0 0)) =
        retrieved.flatMap (fun p => [Event.TranslateMessage p.2, Event.DispatchMessage p.2]) := by
  have hloop := messageLoop_exit_of_quit retrieved rest q hn
  have hpump : ∀ e ∈ pumped retrieved, e.isPump = true := by
    have := messageLoop_isPump (retrieved ++ (0, q) :: rest)
    rw [hloop] at this
    intro e he
    exact this e (by simp [he])
  have hfilter := filter_isPump_eq_self _ hpump
  have hproj : ∀ l : List (Int × MSG),
      (pumped l).filter (fun e => e.isPump && decide (e ≠ Event.GetMessage none 0 0)) =
        l.flatMap (fun p => [Event.TranslateMessage p.2, Event.DispatchMessage p.2]) := by
    intro l
    induction l with
    | nil => rfl
    | cons p l ih =>
      have hcons : pumped (p :: l) =
          [getMessageCall, Event.TranslateMessage p.2, Event.DispatchMessage p.2] ++ pumped l := by
        simp [pumped]
      rw [hcons, List.filter_append, ih]
      simp [getMessageCall, Event.isPump, List.filter_cons]
  have hunfold : pumped retrieved = retrieved.flatMap (fun p =>
      [Event.GetMessage none 0 0, Event.TranslateMessage p.2, Event.DispatchMessage p.2]) := rfl
  refine ⟨?_, ?_, ?_⟩
  · rw [hm, hloop]; rfl
  · rw [wWinMain_trace, hm, hloop, ← hunfold]
    simp only [hc, Bool.true_eq_false, ↓reduceIte, List.filter_append, List.append_assoc, hfilter]
    simp [startupCalls, Event.isPump, List.filter_cons, getMessageCall]
  · rw [wWinMain_trace, hm, hloop]
    simp only [hc, Bool.true_eq_false, ↓reduceIte, List.filter_append, List.append_assoc, hproj]
    simp [startupCalls, Event.isPump, List.filter_cons, getMessageCall]

theorem messageLoop_translates_dispatches_in_order_witness :
    quittingEnv.createResult = true ∧
      quittingEnv.messages =
        [(1, sampleMsg 15), (-1, sampleMsg 15)] ++ (0, sampleMsg 18) :: [(1, sampleMsg 99)] ∧
      (∀ p ∈ [((1 : Int), sampleMsg 15), (-1, sampleMsg 15)], p.1 ≠ 0) ∧
      messageLoop quittingEnv.messages =
        ([((1 : Int), sampleMsg 15), (-1, sampleMsg 15)].flatMap (fun p =>
          [Event.GetMessage none 0 0, Event.TranslateMessage p.2, Event.DispatchMessage p.2]) ++
          [Event.GetMessage none 0 0], true) ∧
      (wWinMain quittingEnv).trace.filter Event.isPump =
        [((1 : Int), sampleMsg 15), (-1, sampleMsg 15)].flatMap (fun p =>
          [Event.GetMessage none 0 0, Event.TranslateMessage p.2, Event.DispatchMessage p.2]) ++
          [Event.GetMessage none 0 0] ∧
      (wWinMain quittingEnv).trace.filter
          (fun e => e.isPump && decide (e ≠ Event.GetMessage none 0 0)) =
        [((1 : Int), sampleMsg 15), (-1, sampleMsg 15)].flatMap
          (fun p => [Event.TranslateMessage p.2, Event.DispatchMessage p.2]) :=
  ⟨rfl, rfl, by decide,
    messageLoop_translates_dispatches_in_order quittingEnv
      [(1, sampleMsg 15), (-1, sampleMsg 15)] [(1, sampleMsg 99)] (sampleMsg 18) rfl rfl
      (by decide)⟩

/-- C10: when `GetMessage` returns a non-zero value (the error return `-1`
included), the loop body runs, `TranslateMessage` and `DispatchMessage` being
called on the message record, and `GetMessage` is called again; the way the run
ends is the one it would have without that answer.  The loop is left only if
some `GetMessage` answer is exactly `0`. -/
theorem messageLoop_continues_on_nonzero (ret : Int) (msg : MSG)
    (pending : List (Int × MSG)) (hr : ret ≠ 0) :
    messageLoop ((ret, msg) :: pending) =
        (Event.GetMessage none 0 0 :: Event.TranslateMessage msg :: Event.DispatchMessage msg ::
          (messageLoop pending).1, (messageLoop pending).2) ∧
      (∃ tl, (messageLoop pending).1 = Event.GetMessage none 0 0 :: tl) ∧
      (∀ env : Env, (wWinMain { env with messages := (ret, msg) :: pending }).outcome =
        (wWinMain { env with messages := pending }).outcome) ∧
      (∀ ms : List (Int × MSG), (messageLoop ms).2 = true → ∃ p ∈ ms, p.1 = 0) := by
  have h1 : messageLoop ((ret, msg) :: pending) =
      (Event.GetMessage none 0 0 :: Event.TranslateMessage msg :: Event.DispatchMessage msg ::
        (messageLoop pending).1, (messageLoop pending).2) := by
    simp [messageLoop, hr, getMessageCall]
  refine ⟨h1, messageLoop_starts_with_retrieval pending, ?_, messageLoop_exit_has_quit⟩
  intro env
  rw [wWinMain_outcome, wWinMain_outcome]
  simp only [h1]

theorem messageLoop_continues_on_nonzero_witness :
    ((-1 : Int) ≠ 0) ∧
      messageLoop ((-1, sampleMsg 15) :: [(0, sampleMsg 18)]) =
        (Event.GetMessage none 0 0 :: Event.TranslateMessage (sampleMsg 15) ::
          Event.DispatchMessage (sampleMsg 15) ::
          (messageLoop [(0, sampleMsg 18)]).1, (messageLoop [(0, sampleMsg 18)]).2) ∧
      (∃ tl, (messageLoop [(0, sampleMsg 18)]).1 = Event.GetMessage none 0 0 :: tl) ∧
      (∀ env : Env,
        (wWinMain { env with messages := (-1, sampleMsg 15) :: [(0, sampleMsg 18)] }).outcome =
          (wWinMain { env with messages := [(0, sampleMsg 18)] }).outcome) ∧
      (∀ ms : List (Int × MSG), (messageLoop ms).2 = true → ∃ p ∈ ms, p.1 = 0) :=
  ⟨by decide,
    messageLoop_continues_on_nonzero (-1) (sampleMsg 15) [(0, sampleMsg 18)] (by decide)⟩

end Stockcito
